import Mathlib

/-!
Verification development for the care-tap emergency-medical-record app.

Part 1 embeds the patient-identifier extractor (`extractPatientId` in the
NFC scanner component): trim, zod UUID validation, URL parsing and the
`/patient/<uuid>` path pattern.

Part 2 embeds the ai-diagnosis edge function: the fixed-window rate
limiter `checkRateLimit` and the guarded request handler `serve`
(auth, rate limit, role gate, patient-data validation, upstream call
outcome mapping, audit logging).
-/

namespace CareTap

/-- Hexadecimal digit, upper or lower case: the character class used by the
UUID syntax and by the `/patient/([0-9a-fA-F-]{36})` path pattern. -/
def isHexDigit (c : Char) : Bool :=
  (decide ('0' ≤ c) && decide (c ≤ '9')) ||
  (decide ('a' ≤ c) && decide (c ≤ 'f')) ||
  (decide ('A' ≤ c) && decide (c ≤ 'F'))

/-- Whitespace as consumed by JavaScript String.prototype.trim (ASCII part). -/
def isJsSpace (c : Char) : Bool :=
  c = ' ' || c = '\t' || c = '\n' || c = '\r' || c = '\x0b' || c = '\x0c'

/-- Drop leading and trailing whitespace from a character list. -/
def trimChars (l : List Char) : List Char :=
  ((l.dropWhile isJsSpace).reverse.dropWhile isJsSpace).reverse

/-- Model of `rawData.trim()`. -/
def jsTrim (s : String) : String := ⟨trimChars s.data⟩

/-- The four positions at which a UUID carries a dash. -/
def uuidDashPos (i : Nat) : Bool := i == 8 || i == 13 || i == 18 || i == 23

/-- What character the UUID syntax allows at position `i`. -/
def uuidCharOk (i : Nat) (c : Char) : Bool :=
  if uuidDashPos i then c = '-' else isHexDigit c

/-- Checks that a character list, starting at position `i`, completes a
36-character 8-4-4-4-12 UUID. -/
def uuidCheck : Nat → List Char → Bool
  | i, [] => i == 36
  | i, c :: rest => uuidCharOk i c && uuidCheck (i + 1) rest

/-- Model of `patientIdSchema = z.string().uuid(...)` validation: the
case-insensitive 8-4-4-4-12 hexadecimal UUID shape. `safeParse` returns the
input string itself on success, so acceptance is all that needs modelling. -/
def isValidUUID (s : String) : Bool := uuidCheck 0 s.data

/-- The components of a parsed absolute URL that the extractor reads. -/
structure URLParts where
  scheme : List Char
  host : List Char
  pathname : String
  deriving Repr, DecidableEq

/-- Split a character list at the first occurrence of the literal `://`. -/
def findSchemeSep : List Char → Option (List Char × List Char)
  | [] => none
  | c :: rest =>
    if c = ':' && rest.take 2 = ['/', '/'] then some ([], rest.drop 2)
    else
      match findSchemeSep rest with
      | none => none
      | some (a, b) => some (c :: a, b)

/-- Letter of the Latin alphabet. -/
def isAlpha (c : Char) : Bool :=
  (decide ('a' ≤ c) && decide (c ≤ 'z')) || (decide ('A' ≤ c) && decide (c ≤ 'Z'))

/-- Characters permitted in a URL scheme after the initial letter. -/
def isSchemeChar (c : Char) : Bool :=
  isAlpha c || (decide ('0' ≤ c) && decide (c ≤ '9')) || c = '+' || c = '-' || c = '.'

/-- A URL scheme: a letter followed by letters, digits, `+`, `-` or `.`. -/
def schemeOk : List Char → Bool
  | [] => false
  | c :: rest => isAlpha c && rest.all isSchemeChar

/-- Split the part after `://` into the host and the rest (path, query,
fragment), the host ending at the first `/`, `?` or `#`. -/
def splitHostPath : List Char → List Char × List Char
  | [] => ([], [])
  | c :: rest =>
    if c = '/' || c = '?' || c = '#' then ([], c :: rest)
    else
      let (h, p) := splitHostPath rest
      (c :: h, p)

/-- The path component: everything before the first `?` or `#`. -/
def takePath (l : List Char) : List Char :=
  l.takeWhile (fun c => !(c = '?' || c = '#'))

/-- Model of the WHATWG URL constructor `new URL(trimmed)` restricted to
hierarchical `scheme://host/path` URLs, the shape the extractor's path
pattern can match; `none` models the constructor throwing. -/
def parseURL (s : String) : Option URLParts :=
  match findSchemeSep s.data with
  | none => none
  | some (sch, rest) =>
    if schemeOk sch then
      let (h, p) := splitHostPath rest
      if h = [] then none
      else
        let path : List Char :=
          match p with
          | '/' :: _ => takePath p
          | _ => ['/']
        some { scheme := sch, host := h, pathname := ⟨path⟩ }
    else none

/-- Model of `pathname.match(/^\/patient\/([0-9a-fA-F-]{36})$/)`: the whole
path is `/patient/` followed by exactly 36 hex-or-dash characters, and the
captured group is those 36 characters. -/
def patientPathMatch (path : String) : Option String :=
  let l := path.data
  if l.take 9 = "/patient/".data then
    let g := l.drop 9
    if g.length == 36 && g.all (fun c => isHexDigit c || c = '-') then some ⟨g⟩
    else none
  else none

/-- Shallow embedding of `extractPatientId` from the NFC scanner component:
trim; accept a bare UUID directly; otherwise parse as URL, match the
`/patient/<uuid>` path, re-validate the captured group as a UUID. -/
def extractPatientId (rawData : String) : Option String :=
  let trimmed := jsTrim rawData
  if isValidUUID trimmed then some trimmed
  else
    match parseURL trimmed with
    | none => none
    | some u =>
      match patientPathMatch u.pathname with
      | none => none
      | some g => if isValidUUID g then some g else none
/-! Part 2: the ai-diagnosis edge function. -/

/-- One entry of the in-memory rate-limit map: `{ count, resetTime }`. -/
structure RateEntry where
  count : Nat
  resetTime : Nat
  deriving Repr, DecidableEq

/-- `rateLimitMap`, modelled as an association list from user id to entry. -/
abbrev RateMap := List (String × RateEntry)

/-- `rateLimitMap.get(userId)`. -/
def rmGet (m : RateMap) (k : String) : Option RateEntry :=
  match m with
  | [] => none
  | (k2, v) :: rest => if k2 = k then some v else rmGet rest k

/-- `rateLimitMap.set(userId, v)` (also models in-place mutation of an
existing entry): replace the entry for `k`, or append one. -/
def rmSet (m : RateMap) (k : String) (v : RateEntry) : RateMap :=
  match m with
  | [] => [(k, v)]
  | (k2, v2) :: rest => if k2 = k then (k, v) :: rest else (k2, v2) :: rmSet rest k v

/-- `RATE_LIMIT = 10`. -/
def RATE_LIMIT : Nat := 10

/-- `RATE_WINDOW_MS = 60000`. -/
def RATE_WINDOW_MS : Nat := 60000

/-- Shallow embedding of `checkRateLimit(userId)`: the map mutation is made
explicit, the boolean is the source's return value and `now` is `Date.now()`. -/
def checkRateLimit (userId : String) (now : Nat) (m : RateMap) : Bool × RateMap :=
  match rmGet m userId with
  | none => (true, rmSet m userId ⟨1, now + RATE_WINDOW_MS⟩)
  | some userLimit =>
    if now > userLimit.resetTime then
      (true, rmSet m userId ⟨1, now + RATE_WINDOW_MS⟩)
    else if userLimit.count ≥ RATE_LIMIT then
      (false, m)
    else
      (true, rmSet m userId ⟨userLimit.count + 1, userLimit.resetTime⟩)

/-- The `patientData` object of the request body. A field is `none` when
absent; a present string may still be empty and a present age may be `0`,
which matters because the source tests fields by JavaScript truthiness. -/
structure PatientData where
  name : Option String
  age : Option Int
  bloodType : Option String
  allergies : List String
  medications : List String
  conditions : List String
  deriving Repr, DecidableEq

/-- JavaScript truthiness of a possibly-absent string: absent and `""` are
falsy. -/
def truthyStr : Option String → Bool
  | none => false
  | some s => !(s = "")

/-- JavaScript truthiness of a possibly-absent number: absent and `0` are
falsy. -/
def truthyNum : Option Int → Bool
  | none => false
  | some n => !(n = 0)

/-- The source's structure check
`!patientData.name || !patientData.age || !patientData.bloodType`. -/
def invalidPatientData (p : PatientData) : Bool :=
  !truthyStr p.name || !truthyNum p.age || !truthyStr p.bloodType

/-- The JSON value `JSON.parse(analysisContent)` produces, restricted to the
fields named by the prompt's schema; each is optional because the handler
never checks the parsed shape. -/
structure Analysis where
  triageLevel : Option String
  probableConditions : Option (List (String × Int))
  immediateActions : Option (List String)
  explanation : Option String
  deriving Repr, DecidableEq

/-- Outcome of the upstream call to the AI gateway, as the handler observes
it: an unsuccessful HTTP status, a successful reply without message content,
content that fails `JSON.parse`, or content parsing to an `Analysis`. -/
inductive AIResult where
  | httpError (status : Nat)
  | noContent
  | parseFail
  | parsed (a : Analysis)
  deriving Repr, DecidableEq

/-- Everything the environment decides for one run of the handler: the
request's auth header, the outcome of `supabase.auth.getUser()` (the user id
when it succeeds), the outcome of the `user_roles` select, the request
body's `patientData`, whether `LOVABLE_API_KEY` is configured, the upstream
call's outcome, whether the `access_logs` insert errors, and the clock. -/
structure HandlerEnv where
  authHeader : Option String
  authUser : Option String
  roleFetch : Except Unit (List String)
  patientData : Option PatientData
  apiKeyPresent : Bool
  ai : AIResult
  logInsertFails : Bool
  now : Nat

/-- What one run of the handler produces: the HTTP status and body of the
response, the rate-limit map afterwards, and whether the upstream model call
and the audit insert were reached. -/
structure HandlerResult where
  status : Nat
  errorMsg : Option String
  analysis : Option Analysis
  rateMap : RateMap
  modelCalled : Bool
  auditAttempted : Bool
  auditLogged : Bool
  deriving Repr, DecidableEq

/-- `roles?.some((r) => r.role === "medical_responder" || r.role === "hospital_admin")`. -/
def hasPermission (roles : List String) : Bool :=
  roles.any (fun r => r = "medical_responder" || r = "hospital_admin")

/-- Shallow embedding of the `serve` body of the ai-diagnosis edge function
(the non-OPTIONS path), with each early `return new Response(...)` made an
explicit result. -/
def handle (env : HandlerEnv) (m : RateMap) : HandlerResult :=
  match env.authHeader with
  | none => ⟨401, some "Authorization required", none, m, false, false, false⟩
  | some _ =>
    match env.authUser with
    | none => ⟨401, some "Invalid authentication", none, m, false, false, false⟩
    | some uid =>
      match checkRateLimit uid env.now m with
      | (allowed, m2) =>
        if !allowed then
          ⟨429, some "Rate limit exceeded. Please wait before making another request.",
            none, m2, false, false, false⟩
        else
          match env.roleFetch with
          | .error _ =>
            ⟨500, some "Failed to verify user role", none, m2, false, false, false⟩
          | .ok roles =>
            if !hasPermission roles then
              ⟨403, some "Insufficient permissions. Medical responder or admin role required.",
                none, m2, false, false, false⟩
            else
              match env.patientData with
              | none => ⟨400, some "Patient data required", none, m2, false, false, false⟩
              | some pd =>
                if invalidPatientData pd then
                  ⟨400, some "Invalid patient data structure", none, m2, false, false, false⟩
                else if !env.apiKeyPresent then
                  ⟨500, some "AI service not configured", none, m2, false, false, false⟩
                else
                  match env.ai with
                  | .httpError st =>
                    if st = 429 then
                      ⟨429, some "AI service rate limit exceeded. Please try again later.",
                        none, m2, true, false, false⟩
                    else if st = 402 then
                      ⟨402, some "AI service payment required. Please contact administrator.",
                        none, m2, true, false, false⟩
                    else
                      ⟨500, some "AI analysis failed", none, m2, true, false, false⟩
                  | .noContent =>
                    ⟨500, some "Invalid AI response", none, m2, true, false, false⟩
                  | .parseFail =>
                    ⟨500, some "Failed to parse AI analysis", none, m2, true, false, false⟩
                  | .parsed a =>
                    ⟨200, none, some a, m2, true, true, !env.logInsertFails⟩

/-- Apply `checkRateLimit` once per timestamp, in order, for a fixed user
id, collecting each call's boolean and threading the map through. -/
def runCalls (u : String) (times : List Nat) (m : RateMap) : List Bool × RateMap :=
  match times with
  | [] => ([], m)
  | t :: rest =>
    let r := checkRateLimit u t m
    let r2 := runCalls u rest r.2
    (r.1 :: r2.1, r2.2)

/-- A parsed model output whose triageLevel is outside the enumerated set. -/
def unknownAnalysis : Analysis :=
  { triageLevel := some "unknown", probableConditions := some [],
    immediateActions := some [], explanation := none }

/-- A parsed model output matching the spec's positive validator example. -/
def urgentAnalysis : Analysis :=
  { triageLevel := some "urgent", probableConditions := some [],
    immediateActions := some [], explanation := none }

/-- A well-formed patient snapshot. -/
def okPatient : PatientData :=
  { name := some "John Doe", age := some 45, bloodType := some "A+",
    allergies := [], medications := [], conditions := [] }

/-- A patient snapshot with all three required attributes present and age 0. -/
def ageZeroPatient : PatientData :=
  { name := some "John Doe", age := some 0, bloodType := some "O+",
    allergies := [], medications := [], conditions := [] }

/-- An environment in which every guard passes and the model's reply content
parses to `unknownAnalysis`. -/
def c1Env : HandlerEnv :=
  { authHeader := some "Bearer t", authUser := some "u1",
    roleFetch := .ok ["medical_responder"], patientData := some okPatient,
    apiKeyPresent := true, ai := .parsed unknownAnalysis,
    logInsertFails := false, now := 0 }

/-- An environment in which every earlier guard passes and the body carries
`ageZeroPatient`. -/
def c2Env : HandlerEnv :=
  { authHeader := some "Bearer t", authUser := some "u1",
    roleFetch := .ok ["medical_responder"], patientData := some ageZeroPatient,
    apiKeyPresent := true, ai := .parsed urgentAnalysis,
    logInsertFails := false, now := 0 }

/-! Lemmas about the identifier extractor. -/

lemma uuid_chars_hex_or_dash : ∀ (i : Nat) (l : List Char), uuidCheck i l = true →
    ∀ c ∈ l, isHexDigit c = true ∨ c = '-' := by
  intro i l
  induction l generalizing i with
  | nil => intro _ c hc; cases hc
  | cons a rest ih =>
    intro h c hc
    simp only [uuidCheck, Bool.and_eq_true] at h
    rcases List.mem_cons.mp hc with rfl | hmem
    · have hok := h.1
      unfold uuidCharOk at hok
      split at hok
      · exact Or.inr (of_decide_eq_true hok)
      · exact Or.inl hok
    · exact ih (i + 1) h.2 c hmem

lemma hex_or_dash_not_space {c : Char} (h : isHexDigit c = true ∨ c = '-') :
    isJsSpace c = false := by
  cases hb : isJsSpace c with
  | false => rfl
  | true =>
    exfalso
    simp only [isJsSpace, Bool.or_eq_true, decide_eq_true_eq] at hb
    rcases h with h | rfl
    · rcases hb with ((((rfl | rfl) | rfl) | rfl) | rfl) | rfl <;> exact absurd h (by decide)
    · rcases hb with ((((h | h) | h) | h) | h) | h <;> exact absurd h (by decide)

lemma dropWhile_all_neg {p : Char → Bool} {l : List Char}
    (h : ∀ c ∈ l, p c = false) : l.dropWhile p = l := by
  cases l with
  | nil => rfl
  | cons a rest =>
    rw [List.dropWhile_cons, h a (List.mem_cons_self a rest)]
    simp

lemma trimChars_eq_self {l : List Char} (h : ∀ c ∈ l, isJsSpace c = false) :
    trimChars l = l := by
  unfold trimChars
  rw [dropWhile_all_neg h,
    dropWhile_all_neg (fun c hc => h c (List.mem_reverse.mp hc)),
    List.reverse_reverse]

lemma jsTrim_of_uuid {s : String} (h : isValidUUID s = true) : jsTrim s = s := by
  have hchars : ∀ c ∈ s.data, isJsSpace c = false := fun c hc =>
    hex_or_dash_not_space (uuid_chars_hex_or_dash 0 s.data h c hc)
  show (⟨trimChars s.data⟩ : String) = s
  rw [trimChars_eq_self hchars]

lemma findSchemeSep_colon_mem : ∀ (l : List Char) (a b : List Char),
    findSchemeSep l = some (a, b) → ':' ∈ l := by
  intro l
  induction l with
  | nil => intro a b h; simp [findSchemeSep] at h
  | cons c rest ih =>
    intro a b h
    unfold findSchemeSep at h
    split at h
    · next hc =>
      rw [Bool.and_eq_true, decide_eq_true_eq] at hc
      rw [hc.1]
      exact List.mem_cons_self ':' rest
    · cases hr : findSchemeSep rest with
      | none => rw [hr] at h; exact Option.noConfusion h
      | some ab =>
        obtain ⟨a2, b2⟩ := ab
        exact List.mem_cons_of_mem c (ih a2 b2 hr)

lemma parseURL_imp_not_uuid {t : String} {u : URLParts} (h : parseURL t = some u) :
    isValidUUID t = false := by
  cases hb : isValidUUID t with
  | false => rfl
  | true =>
    exfalso
    unfold parseURL at h
    cases hs : findSchemeSep t.data with
    | none => rw [hs] at h; exact Option.noConfusion h
    | some ab =>
      obtain ⟨sch, rest⟩ := ab
      have hcolon := findSchemeSep_colon_mem t.data sch rest hs
      have hb2 : uuidCheck 0 t.data = true := hb
      rcases uuid_chars_hex_or_dash 0 t.data hb2 ':' hcolon with hh | hh <;>
        exact absurd hh (by decide)

lemma extractPatientId_eq_some_iff (s id : String) :
    extractPatientId s = some id ↔
      (isValidUUID (jsTrim s) = true ∧ id = jsTrim s) ∨
      (∃ u, parseURL (jsTrim s) = some u ∧ patientPathMatch u.pathname = some id ∧
        isValidUUID id = true) := by
  constructor
  · intro h
    simp only [extractPatientId] at h
    split at h
    · next hv => exact Or.inl ⟨hv, (Option.some.inj h).symm⟩
    · next hv =>
      split at h
      · exact Option.noConfusion h
      · next u hu =>
        split at h
        · exact Option.noConfusion h
        · next g hg =>
          split at h
          · next hgv => exact Or.inr ⟨u, hu, (Option.some.inj h) ▸ hg, (Option.some.inj h) ▸ hgv⟩
          · exact Option.noConfusion h
  · intro h
    rcases h with ⟨hv, rfl⟩ | ⟨u, hu, hg, hgv⟩
    · simp only [extractPatientId]
      rw [if_pos hv]
    · have hv : isValidUUID (jsTrim s) = false := parseURL_imp_not_uuid hu
      simp [extractPatientId, hv, hu, hg, hgv]

lemma extractPatientId_of_valid {v : String} (h : isValidUUID v = true) :
    extractPatientId v = some v := by
  simp only [extractPatientId]
  rw [jsTrim_of_uuid h, if_pos h]

/-! Claim theorems. -/

/-- C7: for every string whose trimmed form is a syntactically valid UUID
(hexadecimal digits case-insensitive), `extractPatientId` returns exactly
that trimmed UUID, unchanged in value — never a partial or altered
identifier. -/
theorem C7_extract_direct_uuid (s : String) (h : isValidUUID (jsTrim s) = true) :
    extractPatientId s = some (jsTrim s) := by
  simp only [extractPatientId]
  rw [if_pos h]

theorem C7_extract_direct_uuid_witness :
    isValidUUID (jsTrim "  550E8400-E29B-41D4-A716-446655440000 ") = true ∧
    extractPatientId "  550E8400-E29B-41D4-A716-446655440000 " =
      some "550E8400-E29B-41D4-A716-446655440000" := by
  refine ⟨by decide, ?_⟩
  have h1 := C7_extract_direct_uuid "  550E8400-E29B-41D4-A716-446655440000 " (by decide)
  have h2 : jsTrim "  550E8400-E29B-41D4-A716-446655440000 " =
      "550E8400-E29B-41D4-A716-446655440000" := by decide
  rw [h2] at h1
  exact h1

/-- C8: a valid absolute URL whose path matches `/patient/<36 hex-and-dash
chars>` with the captured group re-validating as a UUID yields exactly that
group; the empty string, a non-UUID non-URL string, a URL with another path
shape, and a captured group that fails UUID re-validation are all rejected
identically with `none`; and nothing outside these two acceptance shapes
ever produces an identifier. -/
theorem C8_extract_url_or_reject :
    (∀ s u g, parseURL (jsTrim s) = some u → patientPathMatch u.pathname = some g →
      isValidUUID g = true → extractPatientId s = some g) ∧
    extractPatientId "" = none ∧
    extractPatientId "not a uuid" = none ∧
    extractPatientId "https://example.com/other/123" = none ∧
    extractPatientId "https://h.co/patient/550e8400e29b41d4a716-446655440000--" = none ∧
    (∀ s id, extractPatientId s = some id →
      (isValidUUID (jsTrim s) = true ∧ id = jsTrim s) ∨
      (∃ u, parseURL (jsTrim s) = some u ∧ patientPathMatch u.pathname = some id ∧
        isValidUUID id = true)) := by
  refine ⟨?_, by decide, by decide, by decide, by decide, ?_⟩
  · intro s u g hu hg hgv
    exact (extractPatientId_eq_some_iff s g).mpr (Or.inr ⟨u, hu, hg, hgv⟩)
  · intro s id h
    exact (extractPatientId_eq_some_iff s id).mp h

theorem C8_extract_url_or_reject_witness :
    extractPatientId "https://h.co/patient/550e8400-e29b-41d4-a716-446655440000" =
      some "550e8400-e29b-41d4-a716-446655440000" :=
  C8_extract_url_or_reject.1
    "https://h.co/patient/550e8400-e29b-41d4-a716-446655440000"
    ⟨"https".data, "h.co".data, "/patient/550e8400-e29b-41d4-a716-446655440000"⟩
    "550e8400-e29b-41d4-a716-446655440000" (by decide) (by decide) (by decide)

/-- C10: the extractor is idempotent on success — every identifier it
produces is itself accepted directly as a bare UUID and is returned
unchanged when fed back in. -/
theorem C10_extract_idempotent (s id : String) (h : extractPatientId s = some id) :
    isValidUUID id = true ∧ extractPatientId id = some id := by
  rcases (extractPatientId_eq_some_iff s id).mp h with ⟨hv, rfl⟩ | ⟨u, hu, hg, hgv⟩
  · exact ⟨hv, extractPatientId_of_valid hv⟩
  · exact ⟨hgv, extractPatientId_of_valid hgv⟩

theorem C10_extract_idempotent_witness :
    isValidUUID "550e8400-e29b-41d4-a716-446655440000" = true ∧
    extractPatientId "550e8400-e29b-41d4-a716-446655440000" =
      some "550e8400-e29b-41d4-a716-446655440000" :=
  C10_extract_idempotent "https://h.co/patient/550e8400-e29b-41d4-a716-446655440000"
    "550e8400-e29b-41d4-a716-446655440000" (by decide)

/-- C3: `checkRateLimit` is a fixed-window per-user counter: a call with no
entry, or past the window reset time, (re)initializes to count 1 with reset
time now + 60 s and allows; a call at or above the ceiling of 10 denies and
leaves the entry unchanged; any other call increments and allows. For a
fixed user id, ten calls at time 0 are all allowed, the 11th call 30 s
later is denied, and the first call after the 60-second window has elapsed
is allowed with the counter reset to 1. -/
theorem C3_fixed_window_counter :
    (∀ u now m, rmGet m u = none →
      checkRateLimit u now m = (true, rmSet m u ⟨1, now + RATE_WINDOW_MS⟩)) ∧
    (∀ u now m e, rmGet m u = some e → now > e.resetTime →
      checkRateLimit u now m = (true, rmSet m u ⟨1, now + RATE_WINDOW_MS⟩)) ∧
    (∀ u now m e, rmGet m u = some e → ¬ now > e.resetTime →
      e.count ≥ RATE_LIMIT → checkRateLimit u now m = (false, m)) ∧
    (∀ u now m e, rmGet m u = some e → ¬ now > e.resetTime →
      e.count < RATE_LIMIT →
      checkRateLimit u now m = (true, rmSet m u ⟨e.count + 1, e.resetTime⟩)) ∧
    runCalls "u1" (List.replicate 10 0 ++ [30000]) [] =
      (List.replicate 10 true ++ [false], [("u1", ⟨10, 60000⟩)]) ∧
    checkRateLimit "u1" 60001 [("u1", ⟨10, 60000⟩)] =
      (true, [("u1", ⟨1, 120001⟩)]) := by
  refine ⟨?_, ?_, ?_, ?_, by decide, by decide⟩
  · intro u now m h
    simp [checkRateLimit, h]
  · intro u now m e h ht
    simp [checkRateLimit, h, ht]
  · intro u now m e h ht hc
    simp [checkRateLimit, h, ht, hc]
  · intro u now m e h ht hc
    simp [checkRateLimit, h, ht, Nat.not_le.mpr hc]

theorem C3_fixed_window_counter_witness :
    checkRateLimit "u1" 5 [("u1", ⟨10, 60000⟩)] = (false, [("u1", ⟨10, 60000⟩)]) :=
  C3_fixed_window_counter.2.2.1 "u1" 5 [("u1", ⟨10, 60000⟩)] ⟨10, 60000⟩
    (by decide) (by decide) (by decide)

/-- C4: the external model endpoint is never invoked unless every guard has
passed: a request with no auth header gets 401 with the rate-limit map
returned untouched, no model call and no audit write; an authenticated
caller whose only role is "patient" gets 403 with no model call; and
whenever the model is called, the auth header was present, the user was
authenticated, the rate limit allowed the call, the role fetch succeeded
with a privileged role, and patientData was present and passed the
structure check. -/
theorem C4_guards_short_circuit :
    (∀ env m, env.authHeader = none →
      handle env m = ⟨401, some "Authorization required", none, m, false, false, false⟩) ∧
    (∀ env m uid m2, env.authHeader ≠ none → env.authUser = some uid →
      checkRateLimit uid env.now m = (true, m2) → env.roleFetch = .ok ["patient"] →
      (handle env m).status = 403 ∧ (handle env m).modelCalled = false ∧
      (handle env m).auditAttempted = false) ∧
    (∀ env m, (handle env m).modelCalled = true →
      env.authHeader ≠ none ∧ env.authUser ≠ none ∧
      (∀ uid, env.authUser = some uid → (checkRateLimit uid env.now m).1 = true) ∧
      (∃ roles, env.roleFetch = .ok roles ∧ hasPermission roles = true) ∧
      (∃ pd, env.patientData = some pd ∧ invalidPatientData pd = false) ∧
      env.apiKeyPresent = true) := by
  refine ⟨?_, ?_, ?_⟩
  · intro env m h
    simp [handle, h]
  · intro env m uid m2 hA hU hRL hR
    cases hA2 : env.authHeader with
    | none => exact absurd hA2 hA
    | some a =>
      simp [handle, hA2, hU, hRL, hR, (by decide : hasPermission ["patient"] = false)]
  · intro env m h
    cases hA : env.authHeader with
    | none => simp [handle, hA] at h
    | some a =>
      cases hU : env.authUser with
      | none => simp [handle, hA, hU] at h
      | some uid =>
        rcases hRL : checkRateLimit uid env.now m with ⟨allowed, m2⟩
        cases allowed with
        | false => simp [handle, hA, hU, hRL] at h
        | true =>
          cases hR : env.roleFetch with
          | error e => simp [handle, hA, hU, hRL, hR] at h
          | ok roles =>
            cases hP : hasPermission roles with
            | false => simp [handle, hA, hU, hRL, hR, hP] at h
            | true =>
              cases hPD : env.patientData with
              | none => simp [handle, hA, hU, hRL, hR, hP, hPD] at h
              | some pd =>
                cases hInv : invalidPatientData pd with
                | true => simp [handle, hA, hU, hRL, hR, hP, hPD, hInv] at h
                | false =>
                  cases hKey : env.apiKeyPresent with
                  | false => simp [handle, hA, hU, hRL, hR, hP, hPD, hInv, hKey] at h
                  | true =>
                    refine ⟨by simp, by simp, ?_, ⟨roles, rfl, hP⟩,
                      ⟨pd, rfl, hInv⟩, rfl⟩
                    intro uid2 h2
                    injection h2 with h3
                    subst h3
                    rw [hRL]

theorem C4_guards_short_circuit_witness :
    handle ⟨none, none, .ok [], none, false, .parseFail, false, 0⟩ [] =
      ⟨401, some "Authorization required", none, [], false, false, false⟩ :=
  C4_guards_short_circuit.1 ⟨none, none, .ok [], none, false, .parseFail, false, 0⟩ [] rfl

/-- C5: the role gate authorizes iff the fetched role set contains one of
the two privileged roles; a storage error while fetching roles yields
status 500 with "Failed to verify user role" and no model call (never an
implicit allow); a role set without a privileged role yields 403. -/
theorem C5_role_gate :
    (∀ roles, hasPermission roles = true ↔
      ∃ r ∈ roles, r = "medical_responder" ∨ r = "hospital_admin") ∧
    (∀ env m uid m2, env.authHeader ≠ none → env.authUser = some uid →
      checkRateLimit uid env.now m = (true, m2) → env.roleFetch = .error () →
      handle env m =
        ⟨500, some "Failed to verify user role", none, m2, false, false, false⟩) ∧
    (∀ env m uid m2 roles, env.authHeader ≠ none → env.authUser = some uid →
      checkRateLimit uid env.now m = (true, m2) → env.roleFetch = .ok roles →
      hasPermission roles = false →
      handle env m =
        ⟨403, some "Insufficient permissions. Medical responder or admin role required.",
          none, m2, false, false, false⟩) := by
  refine ⟨?_, ?_, ?_⟩
  · intro roles
    simp [hasPermission, List.any_eq_true, Bool.or_eq_true, decide_eq_true_eq]
  · intro env m uid m2 hA hU hRL hR
    cases hA2 : env.authHeader with
    | none => exact absurd hA2 hA
    | some a => simp [handle, hA2, hU, hRL, hR]
  · intro env m uid m2 roles hA hU hRL hR hP
    cases hA2 : env.authHeader with
    | none => exact absurd hA2 hA
    | some a => simp [handle, hA2, hU, hRL, hR, hP]

theorem C5_role_gate_witness :
    handle ⟨some "Bearer t", some "u1", .error (), some okPatient, true,
        .parsed urgentAnalysis, false, 0⟩ [] =
      ⟨500, some "Failed to verify user role", none, [("u1", ⟨1, 60000⟩)],
        false, false, false⟩ :=
  C5_role_gate.2.1
    ⟨some "Bearer t", some "u1", .error (), some okPatient, true,
      .parsed urgentAnalysis, false, 0⟩ [] "u1" [("u1", ⟨1, 60000⟩)]
    (by decide) rfl (by decide) rfl

/-- C6: unusable upstream replies map to distinct caller-facing failures:
upstream status 429 → 429 "AI service rate limit exceeded...", upstream
status 402 → 402 "AI service payment required...", any other unsuccessful
upstream status → 500 "AI analysis failed", and a successful reply whose
message content fails to parse as JSON → 500 "Failed to parse AI
analysis". -/
theorem C6_upstream_failure_mapping :
    ∀ env m uid m2 roles pd, env.authHeader ≠ none → env.authUser = some uid →
      checkRateLimit uid env.now m = (true, m2) → env.roleFetch = .ok roles →
      hasPermission roles = true → env.patientData = some pd →
      invalidPatientData pd = false → env.apiKeyPresent = true →
      (env.ai = .httpError 429 →
        handle env m = ⟨429, some "AI service rate limit exceeded. Please try again later.",
          none, m2, true, false, false⟩) ∧
      (env.ai = .httpError 402 →
        handle env m = ⟨402, some "AI service payment required. Please contact administrator.",
          none, m2, true, false, false⟩) ∧
      (∀ st, env.ai = .httpError st → st ≠ 429 → st ≠ 402 →
        handle env m = ⟨500, some "AI analysis failed", none, m2, true, false, false⟩) ∧
      (env.ai = .parseFail →
        handle env m = ⟨500, some "Failed to parse AI analysis", none, m2, true, false, false⟩) := by
  intro env m uid m2 roles pd hA hU hRL hR hP hPD hInv hKey
  cases hA2 : env.authHeader with
  | none => exact absurd hA2 hA
  | some a =>
    refine ⟨?_, ?_, ?_, ?_⟩
    · intro hAI
      simp [handle, hA2, hU, hRL, hR, hP, hPD, hInv, hKey, hAI]
    · intro hAI
      simp [handle, hA2, hU, hRL, hR, hP, hPD, hInv, hKey, hAI]
    · intro st hAI h1 h2
      simp [handle, hA2, hU, hRL, hR, hP, hPD, hInv, hKey, hAI, h1, h2]
    · intro hAI
      simp [handle, hA2, hU, hRL, hR, hP, hPD, hInv, hKey, hAI]

theorem C6_upstream_failure_mapping_witness :
    handle ⟨some "Bearer t", some "u1", .ok ["hospital_admin"], some okPatient,
        true, .httpError 503, false, 0⟩ [] =
      ⟨500, some "AI analysis failed", none, [("u1", ⟨1, 60000⟩)], true, false, false⟩ :=
  ((C6_upstream_failure_mapping
    ⟨some "Bearer t", some "u1", .ok ["hospital_admin"], some okPatient,
      true, .httpError 503, false, 0⟩ [] "u1" [("u1", ⟨1, 60000⟩)]
    ["hospital_admin"] okPatient
    (by decide) rfl (by decide) rfl (by decide) rfl (by decide) rfl).2.2.1)
    503 rfl (by decide) (by decide)

/-- C9: whether the access_logs insert succeeds or errors never changes the
user-facing response: for every environment the status, error body,
analysis body and rate-limit map of the run are identical under the two
outcomes of the insert, and a run that reaches the logging step returns
status 200 with the computed analysis either way. -/
theorem C9_logging_failure_invisible :
    (∀ (env : HandlerEnv) (m : RateMap) (b1 b2 : Bool),
      (handle { env with logInsertFails := b1 } m).status =
        (handle { env with logInsertFails := b2 } m).status ∧
      (handle { env with logInsertFails := b1 } m).errorMsg =
        (handle { env with logInsertFails := b2 } m).errorMsg ∧
      (handle { env with logInsertFails := b1 } m).analysis =
        (handle { env with logInsertFails := b2 } m).analysis ∧
      (handle { env with logInsertFails := b1 } m).rateMap =
        (handle { env with logInsertFails := b2 } m).rateMap) ∧
    (∀ env m uid m2 roles pd a, env.authHeader ≠ none → env.authUser = some uid →
      checkRateLimit uid env.now m = (true, m2) → env.roleFetch = .ok roles →
      hasPermission roles = true → env.patientData = some pd →
      invalidPatientData pd = false → env.apiKeyPresent = true →
      env.ai = .parsed a →
      (handle env m).status = 200 ∧ (handle env m).errorMsg = none ∧
      (handle env m).analysis = some a ∧ (handle env m).auditAttempted = true) := by
  constructor
  · intro env m b1 b2
    cases hA : env.authHeader with
    | none => simp [handle, hA]
    | some a =>
      cases hU : env.authUser with
      | none => simp [handle, hA, hU]
      | some uid =>
        rcases hRL : checkRateLimit uid env.now m with ⟨allowed, m2⟩
        cases allowed with
        | false => simp [handle, hA, hU, hRL]
        | true =>
          cases hR : env.roleFetch with
          | error e => simp [handle, hA, hU, hRL, hR]
          | ok roles =>
            cases hP : hasPermission roles with
            | false => simp [handle, hA, hU, hRL, hR, hP]
            | true =>
              cases hPD : env.patientData with
              | none => simp [handle, hA, hU, hRL, hR, hP, hPD]
              | some pd =>
                cases hInv : invalidPatientData pd with
                | true => simp [handle, hA, hU, hRL, hR, hP, hPD, hInv]
                | false =>
                  cases hKey : env.apiKeyPresent with
                  | false => simp [handle, hA, hU, hRL, hR, hP, hPD, hInv, hKey]
                  | true =>
                    cases hAI : env.ai with
                    | httpError st =>
                      simp [handle, hA, hU, hRL, hR, hP, hPD, hInv, hKey, hAI]
                    | noContent =>
                      simp [handle, hA, hU, hRL, hR, hP, hPD, hInv, hKey, hAI]
                    | parseFail =>
                      simp [handle, hA, hU, hRL, hR, hP, hPD, hInv, hKey, hAI]
                    | parsed a2 =>
                      simp [handle, hA, hU, hRL, hR, hP, hPD, hInv, hKey, hAI]
  · intro env m uid m2 roles pd a hA hU hRL hR hP hPD hInv hKey hAI
    cases hA2 : env.authHeader with
    | none => exact absurd hA2 hA
    | some ah => simp [handle, hA2, hU, hRL, hR, hP, hPD, hInv, hKey, hAI]

theorem C9_logging_failure_invisible_witness :
    (handle { c1Env with ai := .parsed urgentAnalysis, logInsertFails := true } []).status = 200 ∧
    (handle { c1Env with ai := .parsed urgentAnalysis, logInsertFails := true } []).errorMsg = none ∧
    (handle { c1Env with ai := .parsed urgentAnalysis, logInsertFails := true } []).analysis =
      some urgentAnalysis ∧
    (handle { c1Env with ai := .parsed urgentAnalysis, logInsertFails := true } []).auditAttempted =
      true :=
  C9_logging_failure_invisible.2
    { c1Env with ai := .parsed urgentAnalysis, logInsertFails := true } []
    "u1" [("u1", ⟨1, 60000⟩)] ["medical_responder"] okPatient urgentAnalysis
    (by decide) rfl (by decide) rfl (by decide) rfl (by decide) rfl rfl

/-- C1 counterexample: with every guard passing and the model's reply
content parsing to a JSON object whose triageLevel is "unknown" (outside
the enumerated set), the handler does not reject: it returns status 200
with that object as the analysis, so a DiagnosisResult is produced from a
structurally invalid response. -/
theorem C1_counterexample :
    c1Env.ai = .parsed unknownAnalysis ∧
    unknownAnalysis.triageLevel = some "unknown" ∧
    (handle c1Env []).status = 200 ∧
    (handle c1Env []).errorMsg = none ∧
    (handle c1Env []).analysis = some unknownAnalysis := by decide

/-- C1 amended: after the model's response content parses as JSON, the
handler performs no structural validation: whatever value the content
parsed to is returned verbatim as the analysis with status 200 — in
particular the response parsing to triageLevel "urgent" with empty
probableConditions and immediateActions succeeds and yields that analysis,
but a triageLevel outside critical/urgent/stable, or missing fields, are
returned just the same rather than rejected. -/
theorem C1_parsed_returned_unvalidated :
    ∀ env m uid m2 roles pd a, env.authHeader ≠ none → env.authUser = some uid →
      checkRateLimit uid env.now m = (true, m2) → env.roleFetch = .ok roles →
      hasPermission roles = true → env.patientData = some pd →
      invalidPatientData pd = false → env.apiKeyPresent = true →
      env.ai = .parsed a →
      handle env m = ⟨200, none, some a, m2, true, true, !env.logInsertFails⟩ := by
  intro env m uid m2 roles pd a hA hU hRL hR hP hPD hInv hKey hAI
  cases hA2 : env.authHeader with
  | none => exact absurd hA2 hA
  | some ah => simp [handle, hA2, hU, hRL, hR, hP, hPD, hInv, hKey, hAI]

theorem C1_parsed_returned_unvalidated_witness :
    handle { c1Env with ai := .parsed urgentAnalysis } [] =
      ⟨200, none, some urgentAnalysis, [("u1", ⟨1, 60000⟩)], true, true, true⟩ :=
  C1_parsed_returned_unvalidated
    { c1Env with ai := .parsed urgentAnalysis } [] "u1" [("u1", ⟨1, 60000⟩)]
    ["medical_responder"] okPatient urgentAnalysis
    (by decide) rfl (by decide) rfl (by decide) rfl (by decide) rfl rfl

/-- C2: the handler's structure check tests the required attributes by
JavaScript truthiness, so a patientData in which all three required
attributes are present but age is the non-negative integer 0 is rejected
locally with 400 "Invalid patient data structure" instead of proceeding
toward the external model call. -/
theorem C2_age_zero_rejected :
    ageZeroPatient.name = some "John Doe" ∧ ageZeroPatient.age = some 0 ∧
    ageZeroPatient.bloodType = some "O+" ∧
    invalidPatientData ageZeroPatient = true ∧
    (handle c2Env []).status = 400 ∧
    (handle c2Env []).errorMsg = some "Invalid patient data structure" ∧
    (handle c2Env []).modelCalled = false := by decide

end CareTap

